import Mathlib

/-!
Verification of the core logic of `core-invoice`, an invoice-editing tool.

The embedding follows the TypeScript sources:
  * `src/utils/invoiceCalculations.ts` — the calculation engine;
  * `src/utils/storage.ts` (unnamed part_000) — persistence, sequential
    numbering, import/export;
  * `src/App.tsx` `handleLoadTemplate` — template derivation;
  * `src/components/TemplateManager.tsx` `handleDuplicateTemplate` —
    template duplication.

JavaScript numbers are embedded as `JSNum`: either an exact rational
(`num q`) or `nan`.  A line-item field holding a non-numeric string such
as `"abc"` is embedded as `nan`, the value JavaScript's ToNumber coercion
gives it inside the arithmetic the engine performs on it.  Exact rationals
stand in for binary floating point; the spec itself keeps all values as
raw products and defers rounding to display, so no claim in scope depends
on float rounding.
-/

/-- A JavaScript number: an exact rational or NaN. -/
inductive JSNum where
  | nan : JSNum
  | num : ℚ → JSNum
deriving DecidableEq, Repr

/-- JavaScript `+` on numbers: NaN is absorbing. -/
def JSNum.add : JSNum → JSNum → JSNum
  | JSNum.num a, JSNum.num b => JSNum.num (a + b)
  | _, _ => JSNum.nan

instance : Add JSNum := ⟨JSNum.add⟩

/-- JavaScript `*` on numbers: NaN is absorbing. -/
def JSNum.mul : JSNum → JSNum → JSNum
  | JSNum.num a, JSNum.num b => JSNum.num (a * b)
  | _, _ => JSNum.nan

instance : Mul JSNum := ⟨JSNum.mul⟩

/-- JavaScript `/` on numbers.  The source only ever divides by the
literal `100`, so the division-by-zero branch (an infinity in JavaScript,
collapsed to `nan` here) is never exercised. -/
def JSNum.div : JSNum → JSNum → JSNum
  | JSNum.num a, JSNum.num b => if b = 0 then JSNum.nan else JSNum.num (a / b)
  | _, _ => JSNum.nan

instance : Div JSNum := ⟨JSNum.div⟩

/-- Whether a `JSNum` is NaN. -/
def JSNum.isNaN : JSNum → Bool
  | JSNum.nan => true
  | JSNum.num _ => false

/-! ### The invoice record model (`src/types/invoice.types.ts`) -/

structure CompanyInfo where
  name : String
  tagline : String
  address : String
  city : String
  postalCode : String
  country : String
  companyCode : String
  vatNumber : String
  email : String
  phone : String
deriving DecidableEq, Repr

structure ClientInfo where
  name : String
  address : String
  building : Option String
  floor : Option String
  city : String
  country : String
  uic : String
  vatNumber : String
deriving DecidableEq, Repr

structure InvoiceDetails where
  invoiceNumber : String
  invoiceDate : String
  servicePeriodStart : String
  servicePeriodEnd : String
deriving DecidableEq, Repr

structure ServiceItem where
  id : String
  description : String
  additionalInfo : Option String
  quantity : JSNum
  unitPrice : JSNum
  amount : JSNum
deriving DecidableEq, Repr

structure PaymentInfo where
  bankName : String
  iban : String
  swift : String
  currency : String
  paymentTermsDays : JSNum
deriving DecidableEq, Repr

structure ReverseChargeInfo where
  applicable : Bool
  article44Text : String
  article13Text : String
  customerVAT : String
deriving DecidableEq, Repr

structure Invoice where
  id : String
  templateName : Option String
  company : CompanyInfo
  client : ClientInfo
  details : InvoiceDetails
  services : List ServiceItem
  payment : PaymentInfo
  reverseCharge : ReverseChargeInfo
  subtotal : JSNum
  vatRate : JSNum
  vatAmount : JSNum
  total : JSNum
  footerNote : Option String
deriving DecidableEq, Repr

/-! ### The calculation engine (`src/utils/invoiceCalculations.ts`) -/

/-- `calculateServiceAmount = (quantity, unitPrice) => quantity * unitPrice`. -/
def calculateServiceAmount (quantity unitPrice : JSNum) : JSNum :=
  quantity * unitPrice

/-- `calculateSubtotal = services => services.reduce((sum, s) => sum + s.amount, 0)`. -/
def calculateSubtotal (services : List ServiceItem) : JSNum :=
  services.foldl (fun sum service => sum + service.amount) (JSNum.num 0)

/-- `calculateVAT = (subtotal, vatRate) => (subtotal * vatRate) / 100`. -/
def calculateVAT (subtotal vatRate : JSNum) : JSNum :=
  (subtotal * vatRate) / JSNum.num 100

/-- `calculateTotal = (subtotal, vatAmount) => subtotal + vatAmount`. -/
def calculateTotal (subtotal vatAmount : JSNum) : JSNum :=
  subtotal + vatAmount

/-- `recalculateInvoice` from `src/utils/invoiceCalculations.ts`. -/
def recalculateInvoice (invoice : Invoice) : Invoice :=
  let services := invoice.services.map (fun service =>
    { service with amount := calculateServiceAmount service.quantity service.unitPrice })
  let subtotal := calculateSubtotal services
  let vatAmount :=
    if invoice.reverseCharge.applicable then JSNum.num 0
    else calculateVAT subtotal invoice.vatRate
  let total := calculateTotal subtotal vatAmount
  { invoice with
      services := services
      subtotal := subtotal
      vatAmount := vatAmount
      total := total }

/-- Reference sum of the line-item amounts in item order, written as plain
structural recursion; the spec's `subtotal = Σ amount`. -/
def specSumAmounts : List ServiceItem → JSNum
  | [] => JSNum.num 0
  | s :: rest => s.amount + specSumAmounts rest

/-! ### Basic algebra of `JSNum` -/

theorem JSNum.num_add_num (a b : ℚ) : JSNum.num a + JSNum.num b = JSNum.num (a + b) := rfl

theorem JSNum.nan_add (a : JSNum) : JSNum.nan + a = JSNum.nan := rfl

theorem JSNum.add_nan (a : JSNum) : a + JSNum.nan = JSNum.nan := by cases a <;> rfl

theorem JSNum.num_mul_num (a b : ℚ) : JSNum.num a * JSNum.num b = JSNum.num (a * b) := rfl

theorem JSNum.nan_mul (a : JSNum) : JSNum.nan * a = JSNum.nan := rfl

theorem JSNum.mul_nan (a : JSNum) : a * JSNum.nan = JSNum.nan := by cases a <;> rfl

theorem JSNum.nan_div (a : JSNum) : JSNum.nan / a = JSNum.nan := rfl

theorem JSNum.num_div_num (a b : ℚ) :
    JSNum.num a / JSNum.num b = if b = 0 then JSNum.nan else JSNum.num (a / b) := rfl

theorem JSNum.addAssoc (a b c : JSNum) : a + b + c = a + (b + c) := by
  cases a <;> cases b <;> cases c <;>
    simp [JSNum.num_add_num, JSNum.nan_add, JSNum.add_nan, add_assoc]

theorem JSNum.add_zero_right (a : JSNum) : a + JSNum.num 0 = a := by
  cases a <;> simp [JSNum.num_add_num, JSNum.nan_add, JSNum.add_nan]

theorem JSNum.zero_add_left (a : JSNum) : JSNum.num 0 + a = a := by
  cases a <;> simp [JSNum.num_add_num, JSNum.nan_add, JSNum.add_nan]

/-- The left fold of the source's `reduce` agrees with the reference
right-recursive sum. -/
theorem foldl_add_amounts (l : List ServiceItem) (c : JSNum) :
    l.foldl (fun sum service => sum + service.amount) c = c + specSumAmounts l := by
  induction l generalizing c with
  | nil => simp [specSumAmounts, JSNum.add_zero_right]
  | cons s rest ih =>
      simp only [List.foldl_cons, specSumAmounts]
      rw [ih, JSNum.addAssoc]

theorem calculateSubtotal_eq_specSum (l : List ServiceItem) :
    calculateSubtotal l = specSumAmounts l := by
  rw [calculateSubtotal, foldl_add_amounts, JSNum.zero_add_left]

/-! ### Sample data for the spec's concrete scenarios -/

def sampleCompany : CompanyInfo :=
  { name := "Core", tagline := "", address := "", city := "", postalCode := "",
    country := "", companyCode := "", vatNumber := "", email := "", phone := "" }

def sampleClient : ClientInfo :=
  { name := "Client", address := "", building := none, floor := none,
    city := "", country := "", uic := "", vatNumber := "" }

def sampleDetails : InvoiceDetails :=
  { invoiceNumber := "CORE-2025-11-13-01", invoiceDate := "2025-11-13",
    servicePeriodStart := "2025-11-13", servicePeriodEnd := "2025-12-13" }

def samplePayment : PaymentInfo :=
  { bankName := "", iban := "", swift := "", currency := "EUR",
    paymentTermsDays := JSNum.num 30 }

def sampleReverseChargeOff : ReverseChargeInfo :=
  { applicable := false, article44Text := "", article13Text := "", customerVAT := "" }

def sampleReverseChargeOn : ReverseChargeInfo :=
  { sampleReverseChargeOff with applicable := true }

/-- The spec's concrete line item `{quantity: 2, unitPrice: 100}`. -/
def exampleItem : ServiceItem :=
  { id := "item-1", description := "Consulting", additionalInfo := none,
    quantity := JSNum.num 2, unitPrice := JSNum.num 100, amount := JSNum.num 0 }

/-- Invoice with one line item `{quantity: 2, unitPrice: 100}`, `vatRate: 20`,
`reverseCharge.applicable: false`. -/
def exampleInvoice : Invoice :=
  { id := "inv-1", templateName := none, company := sampleCompany,
    client := sampleClient, details := sampleDetails, services := [exampleItem],
    payment := samplePayment, reverseCharge := sampleReverseChargeOff,
    subtotal := JSNum.num 0, vatRate := JSNum.num 20, vatAmount := JSNum.num 0,
    total := JSNum.num 0, footerNote := none }

/-- The same invoice with `reverseCharge.applicable: true`. -/
def exampleInvoiceRC : Invoice :=
  { exampleInvoice with reverseCharge := sampleReverseChargeOn }

/-- C1: `recalculate` satisfies the reference definition of the computed
aggregates — every amount is the raw product `quantity * unitPrice`, the
subtotal is the ordered sum of the just-updated amounts, `vatAmount` is `0`
under reverse charge and `subtotal * vatRate / 100` otherwise, and the total
is `subtotal + vatAmount`; on the spec's one-item invoice (quantity 2, unit
price 100, VAT 20%) this yields amount 200, subtotal 200, VAT 40, total 240
without reverse charge, and VAT 0, total 200 with it. -/
theorem recalculate_reference_aggregates :
    (∀ x : Invoice,
      (recalculateInvoice x).services
          = x.services.map (fun s => { s with amount := s.quantity * s.unitPrice })
      ∧ (recalculateInvoice x).subtotal = specSumAmounts ((recalculateInvoice x).services)
      ∧ (recalculateInvoice x).vatAmount
          = (if x.reverseCharge.applicable then JSNum.num 0
             else ((recalculateInvoice x).subtotal * x.vatRate) / JSNum.num 100)
      ∧ (recalculateInvoice x).total
          = (recalculateInvoice x).subtotal + (recalculateInvoice x).vatAmount)
    ∧ ((recalculateInvoice exampleInvoice).services.map ServiceItem.amount = [JSNum.num 200]
      ∧ (recalculateInvoice exampleInvoice).subtotal = JSNum.num 200
      ∧ (recalculateInvoice exampleInvoice).vatAmount = JSNum.num 40
      ∧ (recalculateInvoice exampleInvoice).total = JSNum.num 240
      ∧ (recalculateInvoice exampleInvoiceRC).vatAmount = JSNum.num 0
      ∧ (recalculateInvoice exampleInvoiceRC).total = JSNum.num 200) := by
  constructor
  · intro x
    refine ⟨rfl, ?_, rfl, rfl⟩
    exact calculateSubtotal_eq_specSum _
  · refine ⟨?_, ?_, ?_, ?_, ?_, ?_⟩ <;>
      norm_num [recalculateInvoice, exampleInvoice, exampleInvoiceRC, exampleItem,
        sampleReverseChargeOn, sampleReverseChargeOff, calculateServiceAmount,
        calculateSubtotal, calculateVAT, calculateTotal, JSNum.num_mul_num,
        JSNum.num_add_num, JSNum.num_div_num]

/-- Re-deriving an amount from fields the amount update does not touch is
stable: mapping the amount-refresh function twice equals mapping it once. -/
theorem map_refresh_amount_idem (l : List ServiceItem) :
    (l.map (fun s => { s with amount := calculateServiceAmount s.quantity s.unitPrice })).map
        (fun s => { s with amount := calculateServiceAmount s.quantity s.unitPrice })
      = l.map (fun s => { s with amount := calculateServiceAmount s.quantity s.unitPrice }) := by
  rw [List.map_map]
  congr 1

/-- C5: `recalculate` is idempotent — applying it to its own output returns
the same invoice, because every derived field is a pure function of the
services' quantities and unit prices, the VAT rate, and the reverse-charge
flag, none of which `recalculate` changes. -/
theorem recalculate_idempotent :
    ∀ x : Invoice, recalculateInvoice (recalculateInvoice x) = recalculateInvoice x := by
  intro x
  have hB := map_refresh_amount_idem x.services
  exact congrArg (fun B : List ServiceItem =>
    { x with
        services := B
        subtotal := calculateSubtotal B
        vatAmount :=
          if x.reverseCharge.applicable then JSNum.num 0
          else calculateVAT (calculateSubtotal B) x.vatRate
        total :=
          calculateTotal (calculateSubtotal B)
            (if x.reverseCharge.applicable then JSNum.num 0
             else calculateVAT (calculateSubtotal B) x.vatRate) }) hB

/-- C8: `recalculate` only writes the derived fields — identity, parties,
details, payment, reverse-charge data and the stored VAT rate all pass
through unchanged (in particular the VAT rate is retained, not zeroed, when
reverse charge applies); as a pure function it has no side effects and never
mutates its input. -/
theorem recalculate_frame :
    ∀ x : Invoice,
      (recalculateInvoice x).id = x.id
      ∧ (recalculateInvoice x).templateName = x.templateName
      ∧ (recalculateInvoice x).company = x.company
      ∧ (recalculateInvoice x).client = x.client
      ∧ (recalculateInvoice x).details = x.details
      ∧ (recalculateInvoice x).payment = x.payment
      ∧ (recalculateInvoice x).reverseCharge = x.reverseCharge
      ∧ (recalculateInvoice x).vatRate = x.vatRate
      ∧ (recalculateInvoice x).footerNote = x.footerNote :=
  fun _ => ⟨rfl, rfl, rfl, rfl, rfl, rfl, rfl, rfl, rfl⟩

/-! ### Decimal rendering (embedding of JavaScript number-to-string)

`String(n)` on a non-negative integer and `padStart(2, '0')` from
`src/utils/storage.ts` are embedded explicitly: `natToStringAux` produces
the decimal digits most-significant first (fuel-based structural recursion;
any fuel above `n` is enough). -/

def natToStringAux : Nat → Nat → List Char
  | 0, _ => []
  | fuel + 1, n =>
      if n < 10 then [Nat.digitChar n]
      else natToStringAux fuel (n / 10) ++ [Nat.digitChar (n % 10)]

/-- JavaScript `String(n)` for a natural number. -/
def natToString (n : Nat) : String := String.mk (natToStringAux (n + 1) n)

/-- JavaScript `s.padStart(2, '0')`. -/
def padStart2 (s : String) : String :=
  if s.length < 2 then String.mk (List.replicate (2 - s.length) '0' ++ s.data) else s

/-- `String(n).padStart(2, '0')`: zero-pad to at least two digits. -/
def pad2 (n : Nat) : String := padStart2 (natToString n)

/-- One step of reading a decimal numeral left to right. -/
def digitStep (a : Nat) (c : Char) : Nat := 10 * a + (c.toNat - 48)

/-- The numeric value of a decimal string (leading zeros allowed). -/
def strVal (s : String) : Nat := s.data.foldl digitStep 0

/-- The numeric sequence suffix embedded after the last `-` of an invoice
number. -/
def seqOf (s : String) : Nat :=
  strVal (String.mk ((s.data.reverse.takeWhile (fun c => c != '-')).reverse))

/-! ### Templates and persisted state (`src/utils/storage.ts`) -/

/-- The content fields a template's `invoice` partial actually carries.  In
the source the field is typed `Partial<Invoice>`, but every template the
application writes (`handleSaveAsTemplate` in `src/App.tsx`, and the editor
dialog in `TemplateManager.tsx`) stores exactly these six content fields,
never identity or date fields. -/
structure TemplateContent where
  company : CompanyInfo
  client : ClientInfo
  services : List ServiceItem
  payment : PaymentInfo
  reverseCharge : ReverseChargeInfo
  vatRate : JSNum
deriving DecidableEq, Repr

/-- `InvoiceTemplate` from `src/types/invoice.types.ts`. -/
structure InvoiceTemplate where
  id : String
  name : String
  description : Option String
  invoice : TemplateContent
  createdAt : String
  updatedAt : String
deriving DecidableEq, Repr

/-- The `localStorage` state visible to `src/utils/storage.ts`: one field
per storage key, holding the parsed value of the key's JSON blob (`none` =
key absent).  JSON serialisation is assumed to round-trip, so values are
stored directly.  The unused `app_settings` key is omitted. -/
structure Storage where
  templates : Option (List InvoiceTemplate)
  currentInvoice : Option Invoice
  lastInvoiceNumber : Option Nat
deriving DecidableEq, Repr

/-- `loadTemplates`: `data ? JSON.parse(data) : []`. -/
def loadTemplates (s : Storage) : List InvoiceTemplate := s.templates.getD []

/-- `saveTemplate`: upsert by `id` — replace the first record with the same
id, else append. -/
def saveTemplate (t : InvoiceTemplate) (s : Storage) : Storage :=
  let templates := loadTemplates s
  match templates.findIdx? (fun u => u.id == t.id) with
  | some i => { s with templates := some (templates.set i t) }
  | none => { s with templates := some (templates ++ [t]) }

/-- `deleteTemplate`: filter out the record with the given id. -/
def deleteTemplate (id : String) (s : Storage) : Storage :=
  { s with templates := some ((loadTemplates s).filter (fun t => t.id != id)) }

/-- `saveCurrentInvoice`. -/
def saveCurrentInvoice (invoice : Invoice) (s : Storage) : Storage :=
  { s with currentInvoice := some invoice }

/-- `saveLastInvoiceNumber`. -/
def saveLastInvoiceNumber (number : Nat) (s : Storage) : Storage :=
  { s with lastInvoiceNumber := some number }

/-- `getLastInvoiceNumber`: `data ? parseInt(data, 10) : 0`. -/
def getLastInvoiceNumber (s : Storage) : Nat := s.lastInvoiceNumber.getD 0

/-- A calendar date as `generateInvoiceNumber` observes it: `year` from
`getFullYear()`, `month` the human month (the source's `getMonth() + 1`),
`day` from `getDate()`. -/
structure CalDate where
  year : Nat
  month : Nat
  day : Nat
deriving DecidableEq, Repr

/-- `generateInvoiceNumber` from `src/utils/storage.ts`.  The call-time
date (`new Date()`) is passed explicitly; `month` is the human month, the
source's `getMonth() + 1`. -/
def generateInvoiceNumber (date : CalDate) (s : Storage) : String × Storage :=
  let year := natToString date.year
  let month := pad2 date.month
  let day := pad2 date.day
  let lastNumber := getLastInvoiceNumber s
  let newNumber := lastNumber + 1
  let s1 := saveLastInvoiceNumber newNumber s
  ("CORE-" ++ year ++ "-" ++ month ++ "-" ++ day ++ "-" ++ pad2 newNumber, s1)

/-- `clearAllData`: remove every storage key. -/
def clearAllData (_s : Storage) : Storage :=
  { templates := none, currentInvoice := none, lastInvoiceNumber := none }

/-! ### Correctness of the decimal rendering -/

theorem digitChar_toNat_sub (d : Nat) (h : d < 10) : (Nat.digitChar d).toNat - 48 = d := by
  interval_cases d <;> rfl

theorem digitChar_ne_dash (d : Nat) (h : d < 10) : Nat.digitChar d ≠ '-' := by
  interval_cases d <;> decide

theorem natToStringAux_val : ∀ fuel n, n < fuel →
    List.foldl digitStep 0 (natToStringAux fuel n) = n := by
  intro fuel
  induction fuel with
  | zero => intro n h; omega
  | succ fuel ih =>
      intro n h
      by_cases h10 : n < 10
      · simp [natToStringAux, h10, digitStep, digitChar_toNat_sub n h10]
      · have hpos : 0 < n := by omega
        have hdiv : n / 10 < fuel := by
          have h1 : n / 10 < n := Nat.div_lt_self hpos (by omega)
          omega
        simp only [natToStringAux, if_neg h10, List.foldl_append]
        rw [ih (n / 10) hdiv]
        have hm : n % 10 < 10 := Nat.mod_lt n (by omega)
        simp [digitStep, digitChar_toNat_sub (n % 10) hm]
        omega

theorem strVal_natToString (n : Nat) : strVal (natToString n) = n :=
  natToStringAux_val (n + 1) n (Nat.lt_succ_self n)

theorem foldl_digitStep_zeros (k : Nat) :
    List.foldl digitStep 0 (List.replicate k '0') = 0 := by
  induction k with
  | zero => rfl
  | succ k ih =>
      have h0 : digitStep 0 '0' = 0 := rfl
      simpa [List.replicate_succ, h0] using ih

theorem strVal_pad2 (n : Nat) : strVal (pad2 n) = n := by
  unfold pad2 padStart2
  by_cases h : (natToString n).length < 2
  · simp only [if_pos h]
    show List.foldl digitStep 0
      (List.replicate (2 - (natToString n).length) '0' ++ (natToString n).data) = n
    rw [List.foldl_append, foldl_digitStep_zeros]
    exact strVal_natToString n
  · simp only [if_neg h]
    exact strVal_natToString n

theorem pad2_inj {a b : Nat} (h : pad2 a = pad2 b) : a = b := by
  have ha := strVal_pad2 a
  rw [h, strVal_pad2 b] at ha
  omega

theorem natToStringAux_no_dash : ∀ fuel n c, c ∈ natToStringAux fuel n → c ≠ '-' := by
  intro fuel
  induction fuel with
  | zero => intro n c hc; simp [natToStringAux] at hc
  | succ fuel ih =>
      intro n c hc
      by_cases h10 : n < 10
      · simp only [natToStringAux, if_pos h10, List.mem_singleton] at hc
        subst hc
        exact digitChar_ne_dash n h10
      · simp only [natToStringAux, if_neg h10, List.mem_append, List.mem_singleton] at hc
        rcases hc with hc | hc
        · exact ih _ _ hc
        · subst hc
          exact digitChar_ne_dash _ (Nat.mod_lt n (by omega))

theorem pad2_no_dash (n : Nat) : ∀ c ∈ (pad2 n).data, c ≠ '-' := by
  intro c hc
  unfold pad2 padStart2 at hc
  by_cases h : (natToString n).length < 2
  · rw [if_pos h] at hc
    have hm : c ∈ List.replicate (2 - (natToString n).length) '0' ++ (natToString n).data := hc
    rcases List.mem_append.mp hm with h1 | h2
    · have := List.eq_of_mem_replicate h1
      subst this
      decide
    · exact natToStringAux_no_dash _ _ _ h2
  · rw [if_neg h] at hc
    exact natToStringAux_no_dash _ _ _ hc

theorem takeWhile_append_all {p : Char → Bool} {l1 l2 : List Char}
    (h : ∀ c ∈ l1, p c = true) :
    (l1 ++ l2).takeWhile p = l1 ++ l2.takeWhile p := by
  induction l1 with
  | nil => simp
  | cons c t ih =>
      simp only [List.cons_append, List.takeWhile_cons, h c (by simp), if_true]
      rw [ih (fun x hx => h x (by simp [hx]))]

/-- Reading the sequence suffix back out of a generated invoice number. -/
theorem seqOf_append_pad2 (p : String) (n : Nat) :
    seqOf (p ++ "-" ++ pad2 n) = n := by
  unfold seqOf
  have hdata : (p ++ "-" ++ pad2 n).data = p.data ++ '-' :: (pad2 n).data := by
    simp [String.data_append]
  rw [hdata, List.reverse_append, List.reverse_cons, List.append_assoc,
    List.singleton_append]
  rw [takeWhile_append_all (by
    intro c hc
    have : c ∈ (pad2 n).data := List.mem_reverse.mp hc
    simp [bne_iff_ne, pad2_no_dash n c this])]
  have hdash : List.takeWhile (fun c => c != '-') ('-' :: p.data.reverse) = [] := by
    simp [List.takeWhile_cons]
  rw [hdash, List.append_nil, List.reverse_reverse]
  exact strVal_pad2 n

theorem seqOf_generateInvoiceNumber (d : CalDate) (s : Storage) :
    seqOf (generateInvoiceNumber d s).1 = getLastInvoiceNumber s + 1 :=
  seqOf_append_pad2 _ _

theorem counter_after_gen (d : CalDate) (s : Storage) :
    getLastInvoiceNumber (generateInvoiceNumber d s).2 = getLastInvoiceNumber s + 1 := rfl

/-- Storage with the numbering counter seeded at 0 and nothing else present. -/
def seedStorage : Storage :=
  { templates := none, currentInvoice := none, lastInvoiceNumber := some 0 }

/-- C3: `generateInvoiceNumber` reads the persisted counter (0 when absent),
increments it, persists the new value, and returns
`CORE-YYYY-MM-DD-NN` with the counter zero-padded to at least two digits;
the counter is not reset per calendar day, values above 99 produce longer
suffixes without error, and with the counter seeded at 0 the first two
calls on 2025-11-13 return `CORE-2025-11-13-01` and `CORE-2025-11-13-02`. -/
theorem generateInvoiceNumber_contract :
    (generateInvoiceNumber ⟨2025, 11, 13⟩ seedStorage).1 = "CORE-2025-11-13-01"
    ∧ (generateInvoiceNumber ⟨2025, 11, 13⟩
        (generateInvoiceNumber ⟨2025, 11, 13⟩ seedStorage).2).1 = "CORE-2025-11-13-02"
    ∧ (∀ d s, (generateInvoiceNumber d s).2.lastInvoiceNumber
        = some (getLastInvoiceNumber s + 1))
    ∧ (∀ d s, (generateInvoiceNumber d s).1
        = "CORE-" ++ natToString d.year ++ "-" ++ pad2 d.month ++ "-" ++ pad2 d.day
          ++ "-" ++ pad2 (getLastInvoiceNumber s + 1))
    ∧ (generateInvoiceNumber ⟨2025, 11, 14⟩
        (generateInvoiceNumber ⟨2025, 11, 13⟩ seedStorage).2).1 = "CORE-2025-11-14-02"
    ∧ (generateInvoiceNumber ⟨2025, 11, 13⟩
        { seedStorage with lastInvoiceNumber := some 99 }).1 = "CORE-2025-11-13-100" :=
  ⟨by decide, by decide, fun _ _ => rfl, fun _ _ => rfl, by decide, by decide⟩

/-! ### Sequential numbering runs -/

/-- A sequence of `generateInvoiceNumber` calls, one per date in the list,
threading the persisted counter. -/
def genRun : List CalDate → Storage → List String × Storage
  | [], s => ([], s)
  | d :: ds, s =>
      let r1 := generateInvoiceNumber d s
      let rest := genRun ds r1.2
      (r1.1 :: rest.1, rest.2)

theorem genRun_counter (ds : List CalDate) (s : Storage) :
    getLastInvoiceNumber (genRun ds s).2 = getLastInvoiceNumber s + ds.length := by
  induction ds generalizing s with
  | nil => simp [genRun]
  | cons d ds ih =>
      show getLastInvoiceNumber (genRun ds (generateInvoiceNumber d s).2).2 = _
      rw [ih, counter_after_gen, List.length_cons]
      omega

theorem genRun_seqs (ds : List CalDate) (s : Storage) :
    (genRun ds s).1.map seqOf
      = (List.range ds.length).map (fun i => getLastInvoiceNumber s + 1 + i) := by
  induction ds generalizing s with
  | nil => simp [genRun]
  | cons d ds ih =>
      show seqOf (generateInvoiceNumber d s).1 ::
          (genRun ds (generateInvoiceNumber d s).2).1.map seqOf = _
      rw [seqOf_generateInvoiceNumber, ih, counter_after_gen]
      rw [List.length_cons, List.range_succ_eq_map, List.map_cons, List.map_map]
      simp only [List.cons.injEq]
      refine ⟨by simp, ?_⟩
      congr 1
      funext i
      simp only [Function.comp]
      omega

/-! ### Import and export (`src/utils/storage.ts`) -/

/-- The state of one key in a parsed JSON import document: missing from
the document, explicitly `null`, or carrying a value. -/
inductive JsonField (α : Type) where
  | absent : JsonField α
  | null : JsonField α
  | value : α → JsonField α
deriving DecidableEq, Repr

/-- A successfully parsed import payload.  `templates` is `none` when the
key is absent or `null` (both falsy under the source's `if (data.templates)`
check, hence behaviourally identical).  `currentInvoice` keeps the
three-way distinction because the source's truthiness check silently skips
an explicit `null`.  `lastInvoiceNumber` covers the absent-or-numeric
values (`none` = the key is `undefined`, failing `!== undefined`). -/
structure ImportDoc where
  templates : Option (List InvoiceTemplate)
  currentInvoice : JsonField Invoice
  lastInvoiceNumber : Option Nat
deriving DecidableEq, Repr

/-- `importData` from `src/utils/storage.ts`.  `input = none` embeds a
string `JSON.parse` rejects: the `catch` rethrows `Invalid JSON data` and,
since parsing precedes every write, storage is untouched.  On a parsed
document the three keys are applied in source order, each guarded as in
the source. -/
def importData (input : Option ImportDoc) (s : Storage) : Except String Unit × Storage :=
  match input with
  | none => (Except.error "Invalid JSON data", s)
  | some data =>
      let s1 := match data.templates with
        | some ts => { s with templates := some ts }
        | none => s
      let s2 := match data.currentInvoice with
        | JsonField.value inv => saveCurrentInvoice inv s1
        | _ => s1
      let s3 := match data.lastInvoiceNumber with
        | some n => saveLastInvoiceNumber n s2
        | none => s2
      (Except.ok (), s3)

/-- C6: sequential calls of the numbering generator (any dates, no
concurrency in the model) yield pairwise-distinct strings whose embedded
sequence numbers strictly increase; the persisted counter grows by one per
call, is untouched by the other normal storage operations, and is reset
only by the explicit data-clear or by an import supplying
`lastInvoiceNumber`. -/
theorem numbering_monotonic :
    (∀ (ds : List CalDate) (s : Storage),
      (genRun ds s).1.Pairwise (fun a b => seqOf a < seqOf b)
      ∧ (genRun ds s).1.Nodup
      ∧ getLastInvoiceNumber (genRun ds s).2 = getLastInvoiceNumber s + ds.length)
    ∧ (∀ d s, getLastInvoiceNumber s < getLastInvoiceNumber (generateInvoiceNumber d s).2)
    ∧ (∀ t s, getLastInvoiceNumber (saveTemplate t s) = getLastInvoiceNumber s)
    ∧ (∀ id s, getLastInvoiceNumber (deleteTemplate id s) = getLastInvoiceNumber s)
    ∧ (∀ inv s, getLastInvoiceNumber (saveCurrentInvoice inv s) = getLastInvoiceNumber s)
    ∧ (∀ s, (clearAllData s).lastInvoiceNumber = none)
    ∧ (∀ (doc : ImportDoc) (s : Storage),
        (importData (some doc) s).2.lastInvoiceNumber
          = (match doc.lastInvoiceNumber with
             | some n => some n
             | none => s.lastInvoiceNumber)) := by
  refine ⟨?_, ?_, ?_, fun _ _ => rfl, fun _ _ => rfl, fun _ => rfl, ?_⟩
  · intro ds s
    have hmap := genRun_seqs ds s
    have hpair : ((genRun ds s).1.map seqOf).Pairwise (· < ·) := by
      rw [hmap]
      exact (List.pairwise_lt_range _).map _ (fun a b h => by omega)
    have hp : (genRun ds s).1.Pairwise (fun a b => seqOf a < seqOf b) :=
      List.pairwise_map.mp hpair
    refine ⟨hp, ?_, genRun_counter ds s⟩
    exact hp.imp (fun h heq => by rw [heq] at h; exact lt_irrefl _ h)
  · intro d s
    rw [counter_after_gen]
    omega
  · intro t s
    simp only [saveTemplate]
    cases (loadTemplates s).findIdx? (fun u => u.id == t.id) <;> rfl
  · intro doc s
    obtain ⟨dt, dc, dl⟩ := doc
    cases dt <;> cases dc <;> cases dl <;> rfl

/-- C9: an import whose string fails to parse is rejected with
`Invalid JSON data` and leaves storage untouched — parsing precedes every
write, so the import is all-or-nothing; a payload that parses is accepted
even with keys missing, and exactly the present keys are applied. -/
theorem importData_atomicity :
    (∀ s, importData none s = (Except.error "Invalid JSON data", s))
    ∧ (∀ (doc : ImportDoc) (s : Storage),
      (importData (some doc) s).1 = Except.ok ()
      ∧ (importData (some doc) s).2.templates
          = (match doc.templates with | some ts => some ts | none => s.templates)
      ∧ (importData (some doc) s).2.currentInvoice
          = (match doc.currentInvoice with
             | JsonField.value inv => some inv
             | _ => s.currentInvoice)
      ∧ (importData (some doc) s).2.lastInvoiceNumber
          = (match doc.lastInvoiceNumber with
             | some n => some n
             | none => s.lastInvoiceNumber)) := by
  refine ⟨fun s => rfl, ?_⟩
  intro doc s
  obtain ⟨dt, dc, dl⟩ := doc
  cases dt <;> cases dc <;> cases dl <;> exact ⟨rfl, rfl, rfl, rfl⟩

/-- C10: the two optional import keys are treated asymmetrically — a
`lastInvoiceNumber` value is applied whenever present (the value 0 in
particular resets the persisted counter to 0), while `currentInvoice` is
applied only when truthy, so an explicitly present `null` is silently
ignored instead of clearing the stored invoice. -/
theorem importData_key_asymmetry :
    (∀ (s : Storage) (n : Nat), getLastInvoiceNumber
        (importData (some ⟨none, JsonField.absent, some n⟩) s).2 = n)
    ∧ (∀ s : Storage, getLastInvoiceNumber
        (importData (some ⟨none, JsonField.absent, some 0⟩) s).2 = 0)
    ∧ (∀ s : Storage,
        (importData (some ⟨none, JsonField.null, none⟩) s).2.currentInvoice
          = s.currentInvoice)
    ∧ (∀ (s : Storage) (inv : Invoice),
        (importData (some ⟨none, JsonField.value inv, none⟩) s).2.currentInvoice
          = some inv) :=
  ⟨fun _ _ => rfl, fun _ => rfl, fun _ => rfl, fun _ _ => rfl⟩

/-! ### Template derivation (`src/App.tsx` `handleLoadTemplate`) -/

/-- ISO date string `YYYY-MM-DD`, as `toISOString().split('T')[0]` renders
a date (zero-padded month and day). -/
def isoDate (d : CalDate) : String :=
  natToString d.year ++ "-" ++ pad2 d.month ++ "-" ++ pad2 d.day

/-- `handleLoadTemplate` from `src/App.tsx`: spread the template content
over a fresh shell, take a fresh invoice number from the numbering
component, re-date, zero the aggregates and recalculate.  `nowId` embeds
`Date.now().toString()`, `today` the call-time date and `periodEnd` the
date 30 days later (epoch-millisecond day arithmetic stays outside the
model).  Returns the new invoice and the storage updated by the numbering
call. -/
def handleLoadTemplate (template : InvoiceTemplate) (nowId : String)
    (today periodEnd : CalDate) (s : Storage) : Invoice × Storage :=
  let gen := generateInvoiceNumber today s
  let newInvoice := recalculateInvoice
    { id := nowId
      templateName := none
      company := template.invoice.company
      client := template.invoice.client
      details :=
        { invoiceNumber := gen.1
          invoiceDate := isoDate today
          servicePeriodStart := isoDate today
          servicePeriodEnd := isoDate periodEnd }
      services := template.invoice.services
      payment := template.invoice.payment
      reverseCharge := template.invoice.reverseCharge
      subtotal := JSNum.num 0
      vatRate := template.invoice.vatRate
      vatAmount := JSNum.num 0
      total := JSNum.num 0
      footerNote := none }
  (newInvoice, gen.2)

/-- Refreshing amounts keeps the item ids. -/
theorem map_refresh_amount_ids (l : List ServiceItem) :
    (l.map (fun s =>
      { s with amount := calculateServiceAmount s.quantity s.unitPrice })).map
        ServiceItem.id = l.map ServiceItem.id := by
  rw [List.map_map]
  rfl

/-- Refreshing amounts is the identity on lists whose amounts are already
consistent. -/
theorem map_refresh_amount_of_consistent (l : List ServiceItem)
    (h : ∀ it ∈ l, it.amount = it.quantity * it.unitPrice) :
    l.map (fun s =>
      { s with amount := calculateServiceAmount s.quantity s.unitPrice }) = l := by
  induction l with
  | nil => rfl
  | cons a t ih =>
      simp only [List.map_cons]
      rw [ih (fun it hit => h it (by simp [hit]))]
      have ha := h a (by simp)
      obtain ⟨i, d, ai, q, p, am⟩ := a
      simp only [calculateServiceAmount] at ha ⊢
      simp only [ServiceItem.mk.injEq, List.cons.injEq, and_true, true_and]
      exact ha.symm

/-- A stored template whose single line item carries a stale amount
(999, while quantity and unit price are both 1).  The store accepts such
templates — nothing revalidates amounts on import. -/
def staleTemplate : InvoiceTemplate :=
  { id := "tpl-1", name := "Stale", description := none,
    invoice :=
      { company := sampleCompany, client := sampleClient,
        services := [{ id := "s1", description := "Svc", additionalInfo := none,
                       quantity := JSNum.num 1, unitPrice := JSNum.num 1,
                       amount := JSNum.num 999 }],
        payment := samplePayment, reverseCharge := sampleReverseChargeOff,
        vatRate := JSNum.num 20 },
    createdAt := "2025-01-01", updatedAt := "2025-01-01" }

/-- The same template with a consistent amount (1 = 1 * 1). -/
def cleanTemplate : InvoiceTemplate :=
  { staleTemplate with
      name := "Clean",
      invoice :=
        { staleTemplate.invoice with
            services := [{ id := "s1", description := "Svc", additionalInfo := none,
                           quantity := JSNum.num 1, unitPrice := JSNum.num 1,
                           amount := JSNum.num 1 }] } }

/-- C4 counterexample: deriving from a template whose stored amount is
stale rewrites the amount during recalculation, so the derived invoice's
services do not deep-equal the template's services. -/
theorem handleLoadTemplate_not_verbatim :
    (handleLoadTemplate staleTemplate "1700000000000" ⟨2025, 11, 13⟩ ⟨2025, 12, 13⟩
        seedStorage).1.services ≠ staleTemplate.invoice.services := by
  norm_num [handleLoadTemplate, recalculateInvoice, calculateServiceAmount,
    staleTemplate, ServiceItem.mk.injEq, JSNum.num_mul_num]

/-- C4 (amended): template derivation copies company, client, payment,
reverse charge, VAT rate and the service ids verbatim, assigns the
caller-fresh id and a fresh number from the numbering component, and then
recalculates — so the derived services deep-equal the template's services
exactly when the template's stored amounts are already consistent
(`amount = quantity * unitPrice`; recalculation rewrites stale amounts);
deriving twice from the same template yields identical content but
distinct invoice numbers (and distinct ids when the fresh ids differ),
and the template value itself is never mutated (the embedding is pure). -/
theorem handleLoadTemplate_amended :
    (∀ (T : InvoiceTemplate) (nowId : String) (today periodEnd : CalDate) (s : Storage),
      (handleLoadTemplate T nowId today periodEnd s).1.company = T.invoice.company
      ∧ (handleLoadTemplate T nowId today periodEnd s).1.client = T.invoice.client
      ∧ (handleLoadTemplate T nowId today periodEnd s).1.payment = T.invoice.payment
      ∧ (handleLoadTemplate T nowId today periodEnd s).1.reverseCharge
          = T.invoice.reverseCharge
      ∧ (handleLoadTemplate T nowId today periodEnd s).1.vatRate = T.invoice.vatRate
      ∧ (handleLoadTemplate T nowId today periodEnd s).1.services.map ServiceItem.id
          = T.invoice.services.map ServiceItem.id
      ∧ (handleLoadTemplate T nowId today periodEnd s).1.id = nowId
      ∧ (handleLoadTemplate T nowId today periodEnd s).1.details.invoiceNumber
          = (generateInvoiceNumber today s).1
      ∧ ((∀ it ∈ T.invoice.services, it.amount = it.quantity * it.unitPrice) →
          (handleLoadTemplate T nowId today periodEnd s).1.services
            = T.invoice.services))
    ∧ (∀ (T : InvoiceTemplate) (id1 id2 : String) (d1 p1 d2 p2 : CalDate) (s : Storage),
      (handleLoadTemplate T id1 d1 p1 s).1.details.invoiceNumber
          ≠ (handleLoadTemplate T id2 d2 p2
              (handleLoadTemplate T id1 d1 p1 s).2).1.details.invoiceNumber
      ∧ (handleLoadTemplate T id1 d1 p1 s).1.company
          = (handleLoadTemplate T id2 d2 p2
              (handleLoadTemplate T id1 d1 p1 s).2).1.company
      ∧ (handleLoadTemplate T id1 d1 p1 s).1.client
          = (handleLoadTemplate T id2 d2 p2
              (handleLoadTemplate T id1 d1 p1 s).2).1.client
      ∧ (handleLoadTemplate T id1 d1 p1 s).1.services
          = (handleLoadTemplate T id2 d2 p2
              (handleLoadTemplate T id1 d1 p1 s).2).1.services
      ∧ (handleLoadTemplate T id1 d1 p1 s).1.payment
          = (handleLoadTemplate T id2 d2 p2
              (handleLoadTemplate T id1 d1 p1 s).2).1.payment
      ∧ (handleLoadTemplate T id1 d1 p1 s).1.reverseCharge
          = (handleLoadTemplate T id2 d2 p2
              (handleLoadTemplate T id1 d1 p1 s).2).1.reverseCharge
      ∧ (handleLoadTemplate T id1 d1 p1 s).1.vatRate
          = (handleLoadTemplate T id2 d2 p2
              (handleLoadTemplate T id1 d1 p1 s).2).1.vatRate
      ∧ (id1 ≠ id2 →
          (handleLoadTemplate T id1 d1 p1 s).1.id
            ≠ (handleLoadTemplate T id2 d2 p2
                (handleLoadTemplate T id1 d1 p1 s).2).1.id)) := by
  constructor
  · intro T nowId today periodEnd s
    refine ⟨rfl, rfl, rfl, rfl, rfl, map_refresh_amount_ids _, rfl, rfl, ?_⟩
    intro hcons
    exact map_refresh_amount_of_consistent _ hcons
  · intro T id1 id2 d1 p1 d2 p2 s
    refine ⟨?_, rfl, rfl, rfl, rfl, rfl, rfl, fun h => h⟩
    intro heq
    have h1 := seqOf_generateInvoiceNumber d1 s
    have h2 := seqOf_generateInvoiceNumber d2 (generateInvoiceNumber d1 s).2
    have hstep := counter_after_gen d1 s
    have hseq := congrArg seqOf heq
    have he1 : seqOf (handleLoadTemplate T id1 d1 p1 s).1.details.invoiceNumber
        = getLastInvoiceNumber s + 1 := h1
    have he2 : seqOf (handleLoadTemplate T id2 d2 p2
          (handleLoadTemplate T id1 d1 p1 s).2).1.details.invoiceNumber
        = getLastInvoiceNumber s + 2 := by
      have : seqOf (generateInvoiceNumber d2 (generateInvoiceNumber d1 s).2).1
          = getLastInvoiceNumber (generateInvoiceNumber d1 s).2 + 1 := h2
      rw [hstep] at this
      exact this
    rw [he1, he2] at hseq
    omega

/-- C4 witness: on a consistent template the derived invoice's services
deep-equal the template's, and two derivations with distinct fresh ids
give invoices with distinct ids and distinct invoice numbers. -/
theorem handleLoadTemplate_amended_witness :
    (handleLoadTemplate cleanTemplate "42" ⟨2025, 11, 13⟩ ⟨2025, 12, 13⟩
        seedStorage).1.services = cleanTemplate.invoice.services
    ∧ (handleLoadTemplate cleanTemplate "42" ⟨2025, 11, 13⟩ ⟨2025, 12, 13⟩
        seedStorage).1.details.invoiceNumber
      ≠ (handleLoadTemplate cleanTemplate "43" ⟨2025, 11, 13⟩ ⟨2025, 12, 13⟩
          (handleLoadTemplate cleanTemplate "42" ⟨2025, 11, 13⟩ ⟨2025, 12, 13⟩
            seedStorage).2).1.details.invoiceNumber
    ∧ (handleLoadTemplate cleanTemplate "42" ⟨2025, 11, 13⟩ ⟨2025, 12, 13⟩
          seedStorage).1.id
      ≠ (handleLoadTemplate cleanTemplate "43" ⟨2025, 11, 13⟩ ⟨2025, 12, 13⟩
          (handleLoadTemplate cleanTemplate "42" ⟨2025, 11, 13⟩ ⟨2025, 12, 13⟩
            seedStorage).2).1.id := by
  obtain ⟨huniv, hpair⟩ := handleLoadTemplate_amended
  have h1 := huniv cleanTemplate "42" ⟨2025, 11, 13⟩ ⟨2025, 12, 13⟩ seedStorage
  have h2 := hpair cleanTemplate "42" "43" ⟨2025, 11, 13⟩ ⟨2025, 12, 13⟩
    ⟨2025, 11, 13⟩ ⟨2025, 12, 13⟩ seedStorage
  refine ⟨?_, h2.1, h2.2.2.2.2.2.2.2 (by decide)⟩
  refine h1.2.2.2.2.2.2.2.2 ?_
  intro it hit
  simp only [cleanTemplate, staleTemplate, List.mem_singleton] at hit
  subst hit
  norm_num [JSNum.num_mul_num]

/-! ### NaN propagation through the calculation engine -/

/-- A line item whose quantity holds the non-numeric string `"abc"`:
ToNumber turns it into NaN inside the engine's multiplication. -/
def nanItem : ServiceItem :=
  { exampleItem with quantity := JSNum.nan, unitPrice := JSNum.num 10 }

/-- The example invoice carrying the non-numeric line item. -/
def nanInvoice : Invoice := { exampleInvoice with services := [nanItem] }

/-- A sum over items one of which has a NaN amount is NaN. -/
theorem specSum_nan_of_mem {l : List ServiceItem} {it : ServiceItem}
    (hmem : it ∈ l) (hnan : it.amount = JSNum.nan) :
    specSumAmounts l = JSNum.nan := by
  induction l with
  | nil => simp at hmem
  | cons a t ih =>
      rcases List.mem_cons.mp hmem with h | h
      · subst h
        simp [specSumAmounts, hnan, JSNum.nan_add]
      · simp [specSumAmounts, ih h, JSNum.add_nan]

/-- C2 counterexample: on an invoice whose only line item has a
non-numeric quantity (NaN after ToNumber), `recalculate` leaves NaN in the
amount and propagates it into the subtotal and the total — nothing is
coerced to 0. -/
theorem recalculate_nan_counterexample :
    (recalculateInvoice nanInvoice).services.map ServiceItem.amount = [JSNum.nan]
    ∧ (recalculateInvoice nanInvoice).subtotal = JSNum.nan
    ∧ (recalculateInvoice nanInvoice).total = JSNum.nan
    ∧ (recalculateInvoice nanInvoice).vatAmount = JSNum.nan := by
  refine ⟨?_, ?_, ?_, ?_⟩ <;>
    simp [recalculateInvoice, nanInvoice, nanItem, exampleInvoice, exampleItem,
      sampleReverseChargeOff, calculateServiceAmount, calculateSubtotal,
      calculateVAT, calculateTotal, JSNum.nan_mul, JSNum.mul_nan, JSNum.nan_add,
      JSNum.add_nan, JSNum.nan_div, JSNum.num_add_num]

/-- C2 (amended): the calculation engine performs no coercion — whenever a
line item's quantity or unit price is non-numeric (NaN after ToNumber),
`recalculate` puts NaN in that item's amount and NaN propagates into the
subtotal and the total, and into the VAT amount too unless reverse charge
forces it to 0; coercion to 0 happens only at the editing surface
(`parseFloat(v) || 0` in `InvoiceEditor.tsx`), before values reach the
engine. -/
theorem recalculate_nan_propagates :
    ∀ (x : Invoice) (it : ServiceItem), it ∈ x.services →
      (it.quantity = JSNum.nan ∨ it.unitPrice = JSNum.nan) →
      (∃ jt ∈ (recalculateInvoice x).services, jt.amount = JSNum.nan)
      ∧ (recalculateInvoice x).subtotal = JSNum.nan
      ∧ (recalculateInvoice x).total = JSNum.nan
      ∧ (x.reverseCharge.applicable = false →
          (recalculateInvoice x).vatAmount = JSNum.nan) := by
  intro x it hmem hnan
  have ha : ({ it with
      amount := calculateServiceAmount it.quantity it.unitPrice } : ServiceItem).amount
      = JSNum.nan := by
    rcases hnan with h | h <;>
      simp [calculateServiceAmount, h, JSNum.nan_mul, JSNum.mul_nan]
  have hamem : ({ it with
      amount := calculateServiceAmount it.quantity it.unitPrice } : ServiceItem)
      ∈ (recalculateInvoice x).services :=
    List.mem_map_of_mem _ hmem
  have hsub : (recalculateInvoice x).subtotal = JSNum.nan := by
    show calculateSubtotal ((recalculateInvoice x).services) = JSNum.nan
    rw [calculateSubtotal_eq_specSum]
    exact specSum_nan_of_mem hamem ha
  have htot : (recalculateInvoice x).total = JSNum.nan := by
    show (recalculateInvoice x).subtotal + (recalculateInvoice x).vatAmount = JSNum.nan
    rw [hsub, JSNum.nan_add]
  refine ⟨⟨_, hamem, ha⟩, hsub, htot, ?_⟩
  intro hrc
  show (if x.reverseCharge.applicable then JSNum.num 0
        else calculateVAT (recalculateInvoice x).subtotal x.vatRate) = JSNum.nan
  rw [hrc]
  simp [calculateVAT, hsub, JSNum.nan_mul, JSNum.nan_div]

/-- C2 witness: the amended claim evaluated on the concrete invoice whose
line item quantity is non-numeric. -/
theorem recalculate_nan_propagates_witness :
    (∃ jt ∈ (recalculateInvoice nanInvoice).services, jt.amount = JSNum.nan)
    ∧ (recalculateInvoice nanInvoice).subtotal = JSNum.nan
    ∧ (recalculateInvoice nanInvoice).total = JSNum.nan
    ∧ (recalculateInvoice nanInvoice).vatAmount = JSNum.nan := by
  have h := recalculate_nan_propagates nanInvoice nanItem
    (by simp [nanInvoice]) (Or.inl rfl)
  exact ⟨h.1, h.2.1, h.2.2.1, h.2.2.2 rfl⟩

/-! ### Template duplication (`src/components/TemplateManager.tsx`) -/

/-- A JavaScript heap of template-content objects, addressed by reference.
Object-valued fields of a runtime template record hold such references;
the spread operator copies the reference, not the object. -/
def TemplateHeap : Type := Nat → TemplateContent

/-- A template record as it exists at runtime: the `invoice` field holds a
reference into the heap. -/
structure TemplateObj where
  id : String
  name : String
  description : Option String
  invoice : Nat
  createdAt : String
  updatedAt : String
deriving DecidableEq, Repr

/-- `handleDuplicateTemplate` builds
`{...template, id, name, createdAt, updatedAt}` — a shallow spread, so the
`invoice` reference is carried over unchanged.  `newId` embeds
`Date.now().toString()` and `now` the two `toISOString()` timestamps; the
source then saves the record, which does not touch the heap. -/
def handleDuplicateTemplate (template : TemplateObj) (newId now : String) : TemplateObj :=
  { template with
      id := newId
      name := template.name ++ " (Copy)"
      createdAt := now
      updatedAt := now }

/-- The in-place mutation `obj.invoice.services = svcs` through a
reference. -/
def writeServices (h : TemplateHeap) (r : Nat) (svcs : List ServiceItem) :
    TemplateHeap :=
  fun a => if a = r then { h a with services := svcs } else h a

/-- Reading `t.invoice.services`. -/
def readServices (h : TemplateHeap) (t : TemplateObj) : List ServiceItem :=
  (h t.invoice).services

/-- Concrete template content used by the duplication scenarios. -/
def sampleContent : TemplateContent :=
  { company := sampleCompany, client := sampleClient, services := [exampleItem],
    payment := samplePayment, reverseCharge := sampleReverseChargeOff,
    vatRate := JSNum.num 20 }

/-- A heap with the sample content at every address. -/
def heap0 : TemplateHeap := fun _ => sampleContent

/-- A concrete runtime template whose invoice content lives at address 0. -/
def templateObj0 : TemplateObj :=
  { id := "tpl-1", name := "Base", description := none, invoice := 0,
    createdAt := "2025-01-01", updatedAt := "2025-01-01" }

/-- C7 counterexample: the duplicate shares the invoice reference with the
original, so emptying the duplicate's services changes what the original's
services read back. -/
theorem duplicate_shares_services :
    readServices
        (writeServices heap0
          (handleDuplicateTemplate templateObj0 "tpl-2" "2025-02-02").invoice [])
        templateObj0
      ≠ readServices heap0 templateObj0 := by
  simp [readServices, writeServices, heap0, handleDuplicateTemplate, templateObj0,
    sampleContent]

/-- C7 (amended): duplication gives the new record the caller-fresh id,
the name suffixed with `" (Copy)"` and fresh timestamps, but copies the
invoice content by reference (shallow spread), so duplicate and original
share mutable state: services written through the duplicate's reference
are what the original reads back. -/
theorem handleDuplicateTemplate_amended :
    ∀ (t : TemplateObj) (newId now : String),
      (handleDuplicateTemplate t newId now).id = newId
      ∧ (handleDuplicateTemplate t newId now).name = t.name ++ " (Copy)"
      ∧ (handleDuplicateTemplate t newId now).createdAt = now
      ∧ (handleDuplicateTemplate t newId now).updatedAt = now
      ∧ (handleDuplicateTemplate t newId now).description = t.description
      ∧ (handleDuplicateTemplate t newId now).invoice = t.invoice
      ∧ (newId ≠ t.id → (handleDuplicateTemplate t newId now).id ≠ t.id)
      ∧ (∀ (h : TemplateHeap) (svcs : List ServiceItem),
          readServices
            (writeServices h (handleDuplicateTemplate t newId now).invoice svcs) t
            = svcs) := by
  intro t newId now
  refine ⟨rfl, rfl, rfl, rfl, rfl, rfl, fun h => h, ?_⟩
  intro h svcs
  simp [readServices, writeServices, handleDuplicateTemplate]

/-- C7 witness: the amended claim evaluated on the concrete template at
address 0 with fresh id `tpl-2`. -/
theorem handleDuplicateTemplate_amended_witness :
    (handleDuplicateTemplate templateObj0 "tpl-2" "2025-02-02").name = "Base (Copy)"
    ∧ (handleDuplicateTemplate templateObj0 "tpl-2" "2025-02-02").id ≠ templateObj0.id
    ∧ readServices
        (writeServices heap0
          (handleDuplicateTemplate templateObj0 "tpl-2" "2025-02-02").invoice
          [exampleItem, exampleItem])
        templateObj0
      = [exampleItem, exampleItem] := by
  have h := handleDuplicateTemplate_amended templateObj0 "tpl-2" "2025-02-02"
  refine ⟨?_, h.2.2.2.2.2.2.1 (by decide), h.2.2.2.2.2.2.2 heap0 [exampleItem, exampleItem]⟩
  rw [h.2.1]
  rfl
